import Mathlib

/-!
# Verification of the pyvo cloud-access prototype

A shallow embedding, in Lean 4, of the cloud access-point machinery of the
`pyvo` repository (files `pyvo/utils/cloud/access_points.py`,
`pyvo/utils/cloud/handler.py`, `pyvo/utils/cloud/mixin.py`,
`pyvo/utils/cloud.py`, `pyvo/utils/download.py`), together with proofs and
refutations of the specification claims about it.

Modelling conventions:
* Python strings are Lean `String`s; the byte-level operations used by the
  code (`str.split`, `str.startswith`, slicing, `str.join`) are re-implemented
  structurally on the underlying character list so that everything reduces.
* Fallible Python code is modelled with `Except PyError`; the `PyError`
  constructors mirror the exception classes the code can raise.
* External effects (HTTP HEAD probes, S3 head-object calls, the datalink
  service, the local filesystem) are passed in as explicit oracle arguments.
* Mutable attributes (the memoized `_accessible` slot) are modelled by
  explicit state passing: a method both consumes and returns the
  instance state.
-/

/-- The Python exception kinds raised by the modelled code. -/
inductive PyError
  | valueError (msg : String)
  | typeError (msg : String)
  | attributeError (name : String)
  | keyError (key : String)
  | indexError
  | nameError (name : String)
  | exception (msg : String)
deriving DecidableEq, Repr

/-- Name of the Python exception class, used to compare raised error kinds. -/
def PyError.className : PyError → String
  | .valueError _ => "ValueError"
  | .typeError _ => "TypeError"
  | .attributeError _ => "AttributeError"
  | .keyError _ => "KeyError"
  | .indexError => "IndexError"
  | .nameError _ => "NameError"
  | .exception _ => "Exception"

/-! ## Character-list implementations of the Python string operations -/

/-- Python `s.split(sep)` for a one-character separator, on the character
list. `''.split(sep) == ['']`, and separators at the ends produce empty
pieces, exactly as in Python. -/
def chSplit (sep : Char) : List Char → List (List Char)
  | [] => [[]]
  | c :: rest =>
    let r := chSplit sep rest
    if c = sep then [] :: r
    else
      match r with
      | [] => [[c]]
      | h :: t => (c :: h) :: t

/-- Python `sep.join(parts)` for a one-character separator. -/
def chIntercalate (sep : Char) : List (List Char) → List Char
  | [] => []
  | [x] => x
  | x :: y :: t => x ++ sep :: chIntercalate sep (y :: t)

/-- Python `s.startswith(pat)` on character lists. -/
def chStartsWith : List Char → List Char → Bool
  | _, [] => true
  | [], _ :: _ => false
  | c :: s, p :: ps => c = p && chStartsWith s ps

/-- Python `s.split(sep)` for a one-character separator. -/
def pySplit (s : String) (sep : Char) : List String :=
  (chSplit sep s.data).map String.mk

/-- Python `sep.join(parts)` for a one-character separator. -/
def pyJoin (sep : Char) (parts : List String) : String :=
  String.mk (chIntercalate sep (parts.map String.data))

/-- Python `s.startswith(pat)`. -/
def pyStartsWith (s pat : String) : Bool :=
  chStartsWith s.data pat.data

/-! ## The data model: `AccessPoint` and `AccessPointContainer`

From `pyvo/utils/cloud/access_points.py`.  For the container-level claims
only the identity of an access point matters: its class attribute
`provider` (`'prem'` for `PREMAccessPoint`, `'aws'` for `AWSAccessPoint`)
and its instance attribute `uid`. -/

/-- An access point, reduced to the two attributes the container logic
reads: `provider` (class attribute) and `uid` (set by
`AccessPoint.__init__`, access_points.py line 140). -/
structure AccessPoint where
  provider : String
  uid : String
deriving DecidableEq, Repr

/-- `AccessPointContainer` (access_points.py lines 17-111).  Its only data
attribute is `self.access_points`, a Python dict mapping a provider name to
the list of its access points.  A Python dict is insertion-ordered with
unique keys; it is modelled as an association list in which lookup and
update always act on the first matching key. -/
structure AccessPointContainer where
  access_points : List (String × List AccessPoint)
deriving DecidableEq, Repr

/-- Python dict lookup `self.access_points[p]` / membership test, first
matching key. -/
def apcLookup (l : List (String × List AccessPoint)) (p : String) :
    Option (List AccessPoint) :=
  match l with
  | [] => none
  | (q, b) :: t => if q = p then some b else apcLookup t p

/-- Python `self.access_points[provider].append(ap)`: mutate the bucket of
the first entry with the given key. -/
def bucketAppend (l : List (String × List AccessPoint)) (p : String)
    (ap : AccessPoint) : List (String × List AccessPoint) :=
  match l with
  | [] => []
  | (q, b) :: t =>
    if q = p then (q, b ++ [ap]) :: t else (q, b) :: bucketAppend t p ap

/-- The bucket of a provider, empty when the key is absent (used to state
properties; the code itself only reads a bucket after ensuring the key is
present). -/
def bucketOf (c : AccessPointContainer) (p : String) : List AccessPoint :=
  (apcLookup c.access_points p).getD []

/-- `AccessPointContainer.uids(provider)` restricted to a single provider
whose key is present (access_points.py lines 80-101): the uids of that
provider's access points.  When the key is absent the method would raise
`KeyError`; `add_access_point` only calls it after inserting the key, so
the total function below agrees with the method at every call site. -/
def uidsOf (c : AccessPointContainer) (p : String) : List String :=
  (bucketOf c p).map AccessPoint.uid

/-- `AccessPointContainer.uids` itself (access_points.py lines 80-101) for
a single provider name: dict indexing raises `KeyError` when the provider
key was never populated. -/
def apcUids (c : AccessPointContainer) (p : String) : Except PyError (List String) :=
  match apcLookup c.access_points p with
  | none => .error (.keyError p)
  | some b => .ok (b.map AccessPoint.uid)

/-- `AccessPointContainer.add_access_point` for a single (non-list)
argument (access_points.py lines 43-77): create the provider bucket if
absent (lines 72-73, a new dict key is appended at the end of the
insertion order), then append the point only if its uid is not already
among that provider's uids (lines 76-77). -/
def add_access_point (c : AccessPointContainer) (ap : AccessPoint) :
    AccessPointContainer :=
  let c1 : AccessPointContainer :=
    if (apcLookup c.access_points ap.provider).isSome then c
    else ⟨c.access_points ++ [(ap.provider, [])]⟩
  if ap.uid ∈ uidsOf c1 ap.provider then c1
  else ⟨bucketAppend c1.access_points ap.provider ap⟩

/-- `add_access_point` applied to a list argument: the method flattens a
list by recursing on each element in order (access_points.py lines 54-57). -/
def addAccessPoints (c : AccessPointContainer) (aps : List AccessPoint) :
    AccessPointContainer :=
  aps.foldl add_access_point c

/-- `AccessPointContainer()`: the empty container. -/
def emptyContainer : AccessPointContainer := ⟨[]⟩

/-! ## `AWSAccessPoint.__init__` (access_points.py lines 260-324)

The constructor resolves the pair (bucket_name, key) and the identifier
`uid` into one another.  The boto3 resource construction is an external
effect and carries no information used by the claims, so the result
records only the string attributes the constructor assigns. -/

/-- The string attributes assigned by `AWSAccessPoint.__init__`:
`self.uid` (via `super().__init__`), `self.s3_uri`, `self.s3_bucket_name`,
`self.s3_key`. -/
structure AWSAccessPointData where
  uid : String
  s3_uri : String
  s3_bucket_name : String
  s3_key : String
deriving DecidableEq, Repr

/-- `AWSAccessPoint.__init__(bucket_name=, key=, uid=)`.
* `uid is None` and `bucket_name`/`key` not both given: `ValueError`
  (line 294).
* `uid is None`, both given: Python evaluates `key[0]` (line 300), which
  raises `IndexError` on an empty key; a leading `'/'` is stripped
  (line 301) and `uid = f's3://{bucket_name}/{key}'` (line 303).
* `uid` given: `bucket_name` and `key` arguments are ignored — the code
  rebinds both from the uid (lines 310-312) with no consistency check.
  A uid not starting with `'s3://'` raises `ValueError` (lines 306-307);
  otherwise `bucket_name = uid.split('/')[2]` and
  `key = '/'.join(uid.split('/')[3:])`.  The index-2 access cannot fail:
  the checked prefix `'s3://'` guarantees at least three split pieces. -/
def awsInit (bucket_name key : Option String) (uid : Option String) :
    Except PyError AWSAccessPointData :=
  match uid with
  | none =>
    match bucket_name, key with
    | some b, some k =>
      match k.data with
      | [] => .error .indexError
      | c0 :: krest =>
        let k := if c0 = '/' then String.mk krest else k
        let u := "s3://" ++ b ++ "/" ++ k
        .ok ⟨u, u, b, k⟩
    | _, _ => .error (.valueError "either uid or both bucket_name and key are required")
  | some u =>
    if pyStartsWith u "s3://" then
      let parts := pySplit u '/'
      let b := parts.getD 2 ""
      let k := pyJoin '/' (parts.drop 3)
      .ok ⟨u, u, b, k⟩
    else .error (.valueError "uid needs to be of the form s3: bucket key")

/-! ## The `accessible` properties (access_points.py lines 209-228, 351-376)

Both properties memoize their result in the instance attribute
`self._accessible` (initialized to `None` by `AccessPoint.__init__`).  The
network probe is an oracle argument; a method evaluation consumes the
instance state and returns the updated state. -/

/-- Outcome of `requests.head(url)`: either an HTTP response (with status
code and reason phrase) or a raised transport exception
(`requests.exceptions.ConnectionError` and friends). -/
inductive HeadResult
  | resp (status_code : Nat) (reason : String)
  | raised (msg : String)
deriving DecidableEq, Repr

/-- State of a `PREMAccessPoint` instance: `self.url` and the memo slot
`self._accessible`. -/
structure PREMAccessPointState where
  url : String
  _accessible : Option (Bool × String)
deriving DecidableEq, Repr

/-- `PREMAccessPoint.accessible` (access_points.py lines 209-228).  When
the memo slot is empty the property calls `requests.head(self.url)` with
no exception handler: a raised transport error propagates to the caller.
An HTTP response is turned into `(status == 200, reason-or-empty)` and
cached. -/
def premAccessible (s : PREMAccessPointState) (head : HeadResult) :
    Except PyError ((Bool × String) × PREMAccessPointState) :=
  match s._accessible with
  | some v => .ok (v, s)
  | none =>
    match head with
    | .raised m => .error (.exception m)
    | .resp code reason =>
      let accessible := code == 200
      let msg := if accessible then "" else reason
      .ok ((accessible, msg), { s with _accessible := some (accessible, msg) })

/-- Outcome of `s3_client.head_object(...)`: header info with the content
length, or a raised exception (auth, missing key, transport, ...). -/
inductive HeadObjectResult
  | ok (contentLength : Nat)
  | exn (msg : String)
deriving DecidableEq, Repr

/-- State of an `AWSAccessPoint` instance: the constructor attributes plus
the memo slot `self._accessible`. -/
structure AWSAccessPointState where
  data : AWSAccessPointData
  _accessible : Option (Bool × String)
deriving DecidableEq, Repr

/-- `AWSAccessPoint.accessible` (access_points.py lines 351-376).  When the
memo slot is empty the property calls `head_object` inside
`try/except Exception`: every raised exception is captured as
`(False, str(e))`.  The result is cached.  The method never raises. -/
def awsAccessible (s : AWSAccessPointState) (head : HeadObjectResult) :
    (Bool × String) × AWSAccessPointState :=
  match s._accessible with
  | some v => (v, s)
  | none =>
    let r : Bool × String :=
      match head with
      | .ok _ => (true, "")
      | .exn m => (false, m)
    (r, { s with _accessible := some r })

/-! ## `AWSAccessPoint.download` (access_points.py lines 380-437) -/

/-- `pathlib.Path(key).name`: the part after the last `'/'`. -/
def pathName (key : String) : String :=
  (pySplit key '/').getLastD ""

/-- State of the local destination file `local_path`, observed by
`os.path.exists` / `os.stat`: `none` when no file exists, `some size`
otherwise. -/
def LocalFile := Option Nat

/-- `AWSAccessPoint.download(cache)` (access_points.py lines 380-437).
* `if not key:` (line 400) raises a bare `Exception` on an empty key.
* `local_path = Path(key).name` (line 403).
* `head_object` (line 406) is an oracle; a raised exception propagates
  (there is no handler).
* Cache branch (lines 410-415): when `cache` holds and a local file of
  exactly the expected size exists, the method executes a bare `return`,
  producing Python `None` — not the local path.
* Transfer branch (lines 417-437): the body evaluates `threading.Lock()`
  (line 424), but `access_points.py` never imports `threading`, so the
  name lookup raises `NameError` before any transfer happens. -/
def awsDownload (s : AWSAccessPointData) (cache : Bool)
    (head : HeadObjectResult) (localFile : Option Nat) :
    Except PyError (Option String) :=
  if s.s3_key = "" then
    .error (.exception ("Unable to locate file " ++ s.s3_key ++ "."))
  else
    match head with
    | .exn m => .error (.exception m)
    | .ok length =>
      match localFile with
      | some size =>
        if cache && (size == length) then .ok none
        else .error (.nameError "threading")
      | none => .error (.nameError "threading")

/-! ## The datalink (secondary-service) strategy

Two implementations exist in the repository:
`process_cloud_datalinks` in `pyvo/utils/cloud/handler.py` (lines 199-289)
and `_process_cloud_datalinks` in `pyvo/utils/cloud.py` (lines 205-287).
Both are modelled from the point where the datalink service has been
found and the `provider` input parameter located, i.e. the loop over the
declared provider options.  The datalink service invocation
`DatalinkQuery.from_resource(...).execute().to_table()` is an oracle
mapping the chosen option to the rows of the result table. -/

/-- The registered providers: the keys of `ACCESS_MAP`
(access_points.py lines 440-445) and equally of `Provider.PROVIDERS`
(cloud.py lines 294-297). -/
def registeredProviders : List String := ["prem", "aws"]

/-- One row of the datalink result table: its `ID` column (joined against
the product row's id value) and its `access_url` column. -/
structure DLTableRow where
  id : String
  access_url : String
deriving DecidableEq, Repr

/-- `option.split(':')[0]`: the provider part of a datalink
option. `str.split` always returns a non-empty list, so the index-0 access
cannot fail. -/
def optionProviderOf (option : String) : String :=
  (pySplit option ':').headD ""

/-- The option loop of `process_cloud_datalinks` (handler.py lines
264-287).  For EVERY declared option the datalink service is invoked
(lines 269-275) — the provider of the option is only inspected afterwards
(lines 280-281): an option with an unregistered provider contributes no
access points but has already cost one service call.  For a registered
option, each product row collects one access point per result row whose
`ID` equals the row's join value, with the `access_url` as its uid
(lines 283-287).

Returns the list of options the service was invoked with, in order, and
the per-product-row list of uids of the created access points. -/
def handlerDatalinksLoop (options : List String)
    (service : String → List DLTableRow) (productIds : List String) :
    List String × List (List String) :=
  match options with
  | [] => ([], productIds.map fun _ => [])
  | option :: rest =>
    let dl_table := service option
    let provider := optionProviderOf option
    let contrib : List (List String) :=
      if provider ∈ registeredProviders then
        productIds.map fun pid =>
          (dl_table.filter fun r => r.id = pid).map DLTableRow.access_url
      else productIds.map fun _ => []
    let (restInvoked, restRows) := handlerDatalinksLoop rest service productIds
    (option :: restInvoked,
     (contrib.zip restRows).map fun rr => rr.1 ++ rr.2)

/-- The option loop of `_process_cloud_datalinks` (cloud.py lines
264-285).  Unlike the handler.py variant, the provider of the option is
checked FIRST (lines 266-268): an unregistered option is skipped with
`continue` before the service is invoked. -/
def cloudDatalinksLoop (options : List String)
    (service : String → List DLTableRow) (productIds : List String) :
    List String × List (List String) :=
  match options with
  | [] => ([], productIds.map fun _ => [])
  | option :: rest =>
    let provider := optionProviderOf option
    let (restInvoked, restRows) := cloudDatalinksLoop rest service productIds
    if provider ∈ registeredProviders then
      let dl_table := service option
      let contrib := productIds.map fun pid =>
        (dl_table.filter fun r => r.id = pid).map DLTableRow.access_url
      (option :: restInvoked, (contrib.zip restRows).map fun rr => rr.1 ++ rr.2)
    else (restInvoked, restRows)

/-! ## `generate_access_points` (handler.py lines 22-94) and
`CloudHandler.__init__` (handler.py lines 298-359)

The input product is one of four accepted Python types (or something
else, which is rejected).  The three discovery strategies are passed in
as functions from the normalized row list to a per-row list of access
points, so that the orchestration logic itself is isolated. -/

/-- The runtime type of the `product` argument, as discriminated by the
`isinstance` checks of handler.py lines 54 and 67. -/
inductive ProductType
  | record
  | dalResults
  | table
  | row
  | other
deriving DecidableEq, Repr

/-- `isinstance(product, (Record, DALResults, Table, Row))`
(handler.py line 54). -/
def validProductType : ProductType → Bool
  | .other => false
  | _ => true

/-- `isinstance(product, (Record, Row))` (handler.py lines 67 and 91):
the input is a single row rather than a collection. -/
def singularProduct : ProductType → Bool
  | .record => true
  | .row => true
  | _ => false

/-- Whether the elements obtained by iterating the product are
`pyvo.dal.Record`s: a `Record` yields itself, a `DALResults` yields
`Record`s; a `Table` yields astropy `Row`s and a `Row` yields itself
(handler.py line 79 checks `isinstance(rows[0], Record)`). -/
def rowsAreRecords : ProductType → Bool
  | .record => true
  | .dalResults => true
  | _ => false

/-- The discovery strategies invoked by `generate_access_points`, in
source order. -/
inductive StrategyName
  | json
  | ucd
  | datalink
deriving DecidableEq, Repr

/-- The value returned by `generate_access_points`: for a collection
input, a Python list of per-row lists of access points; for a singular
input, `ap_list[0]`, a flat Python list of access points.  An element of
the returned list is therefore either an access point or a list of them,
which the caller discriminates with `isinstance(..., list)`. -/
def GeneratedAP := List (AccessPoint ⊕ List AccessPoint)

/-- `generate_access_points(product, mode)` (handler.py lines 52-94),
parametric in the row type `R` and in the three strategies.

`rows` is the normalized row list of line 67-70: `[product]` for a
`Record`/`Row` input, the iterated elements otherwise.  The second
component of the result is the list of strategies that were invoked
before the call returned or raised.

* Line 54: invalid product type raises `ValueError` (before anything
  else runs).
* Lines 60-63: invalid mode raises `ValueError`.
* Lines 73-76: the json strategy runs for modes `json` and `all`.
* Line 79: `isinstance(rows[0], Record)` — on an empty row list this
  indexing raises `IndexError`.
* Lines 81-86: the ucd and datalink strategies run, for the matching
  modes, only when the rows are `Record`s.
* Line 89: the three per-row lists are merged positionally
  (`itertools.chain`).
* Lines 91-92: a singular input is unwrapped to `ap_list[0]`. -/
def generate_access_points {R : Type}
    (ptype : ProductType) (rows : List R) (mode : String)
    (json_strategy ucd_strategy dl_strategy : List R → List (List AccessPoint)) :
    Except PyError GeneratedAP × List StrategyName :=
  if ¬ validProductType ptype then
    (.error (.valueError "product has the wrong type"), [])
  else if ¬ (mode = "json" ∨ mode = "datalink" ∨ mode = "ucd" ∨ mode = "all") then
    (.error (.valueError "mode has to be one of json, datalink, ucd or all"), [])
  else
    let json_ap : List (List AccessPoint) :=
      if mode = "json" ∨ mode = "all" then json_strategy rows
      else rows.map fun _ => []
    let tr1 : List StrategyName :=
      if mode = "json" ∨ mode = "all" then [StrategyName.json] else []
    match rows with
    | [] => (.error .indexError, tr1)
    | _ :: _ =>
      let ucd_ap : List (List AccessPoint) :=
        if rowsAreRecords ptype ∧ (mode = "ucd" ∨ mode = "all") then
          ucd_strategy rows
        else rows.map fun _ => []
      let tr2 : List StrategyName :=
        if rowsAreRecords ptype ∧ (mode = "ucd" ∨ mode = "all") then
          [StrategyName.ucd]
        else []
      let dl_ap : List (List AccessPoint) :=
        if rowsAreRecords ptype ∧ (mode = "datalink" ∨ mode = "all") then
          dl_strategy rows
        else rows.map fun _ => []
      let tr3 : List StrategyName :=
        if rowsAreRecords ptype ∧ (mode = "datalink" ∨ mode = "all") then
          [StrategyName.datalink]
        else []
      let trace := tr1 ++ tr2 ++ tr3
      let ap_list := (json_ap.zipWith (· ++ ·) ucd_ap).zipWith (· ++ ·) dl_ap
      if singularProduct ptype then
        match ap_list with
        | [] => (.error .indexError, trace)
        | l :: _ => (.ok (l.map Sum.inl), trace)
      else
        (.ok (ap_list.map Sum.inr), trace)

/-- The opening lines of `CloudHandler.__init__` (handler.py lines
330-336) applied to the value returned by `generate_access_points`:

    product_is_list = isinstance(generated_ap[0], list)

The indexing `generated_ap[0]` raises `IndexError` when the generated
list is empty — which is exactly what `generate_access_points` returns
for a singular product on which every strategy came back empty.  The
modelled fragment returns the `product_is_list` flag. -/
def cloudHandlerProductIsList (generated_ap : GeneratedAP) : Except PyError Bool :=
  match generated_ap with
  | [] => .error .indexError
  | e :: _ =>
    match e with
    | .inl _ => .ok false
    | .inr _ => .ok true

/-- `CloudHandler.__init__` up to the derivation of `product_is_list`:
run `generate_access_points` (handler.py line 331), then inspect
`generated_ap[0]` (line 333).  The rest of the constructor (building the
per-record containers) is independent of the claims about this point. -/
def cloudHandlerInitFlag {R : Type}
    (ptype : ProductType) (rows : List R) (mode : String)
    (json_strategy ucd_strategy dl_strategy : List R → List (List AccessPoint)) :
    Except PyError Bool :=
  match (generate_access_points ptype rows mode
          json_strategy ucd_strategy dl_strategy).1 with
  | .error e => .error e
  | .ok gap => cloudHandlerProductIsList gap

/-! ## `CloudHandler.download` (handler.py lines 431-485)

The per-row body first evaluates `access.providers` (line 455).
`AccessPointContainer` instances have no attribute named `providers`:
`__init__` (access_points.py line 35) binds only `access_points`, the
class body defines only the methods `__init__`, `add_access_point`,
`uids`, `__repr__`, `__getitem__`, and the `dict` base class contributes
no such attribute either (nor does any other file of the repository
define one).  Python attribute lookup therefore raises
`AttributeError`. -/

/-- The attribute names available on an `AccessPointContainer` instance:
the single instance attribute bound by `__init__` plus the methods of the
class body (access_points.py lines 17-111). -/
def containerAttrNames : List String :=
  ["access_points", "__init__", "add_access_point", "uids", "__repr__",
   "__getitem__"]

/-- The behaviour of one access point at download time, as consumed by
the selection loop: the value of its (memoized) `accessible` property and
the value returned by its `download(cache)` method.  `PREMAccessPoint.
download` returns a path; `AWSAccessPoint.download` may return `None`
(see `awsDownload`), hence the `Option`. -/
def APBehaviour := AccessPoint → (Bool × String) × Option String

/-- The candidate loop of `CloudHandler.download` (handler.py lines
462-468): probe the provider's access points in container order; on the
first accessible one call its `download` and stop, keeping the failure
messages collected so far; if none is accessible, collect every failure
message and leave the path `None`. -/
def selectLoop (aps : List AccessPoint) (beh : APBehaviour) :
    Option String × List String :=
  match aps with
  | [] => (none, [])
  | ap :: rest =>
    let r := beh ap
    if r.1.1 then (r.2, [])
    else
      let (p, ms) := selectLoop rest beh
      (p, r.1.2 :: ms)

/-- The per-row body of `CloudHandler.download` (handler.py lines
453-470).  Line 455 evaluates `access.providers`; no such attribute
exists (`containerAttrNames`), so the lookup raises `AttributeError` and
nothing below line 455 is reachable.  The then-branch records what lines
456-470 would do under the reading `providers` = set of populated
provider keys: membership hit probes the bucket via `selectLoop`,
membership miss records the message `'No data from {provider}'`. -/
def downloadRow (access : AccessPointContainer) (provider : String)
    (beh : APBehaviour) : Except PyError (Option String × List String) :=
  if ("providers" : String) ∈ containerAttrNames then
    if provider ∈ access.access_points.map Prod.fst then
      .ok (selectLoop (bucketOf access provider) beh)
    else
      .ok (none, ["No data from " ++ provider])
  else
    .error (.attributeError "providers")

/-- The row loop of `CloudHandler.download` (handler.py lines 449-477):
process the containers in order, collecting per-row paths and messages;
an exception raised for any row propagates out of the whole call. -/
def cloudHandlerDownload (containers : List AccessPointContainer)
    (provider : String) (beh : APBehaviour) :
    Except PyError (List (Option String) × List (List String)) :=
  match containers with
  | [] => .ok ([], [])
  | c :: rest =>
    match downloadRow c provider beh with
    | .error e => .error e
    | .ok (p, msgs) =>
      match cloudHandlerDownload rest provider beh with
      | .error e => .error e
      | .ok (ps, ms) => .ok (p :: ps, msgs :: ms)

/-! ## Lemmas about the container -/

theorem apcLookup_append_single (l : List (String × List AccessPoint))
    (q : String) (b : List AccessPoint) (p : String) :
    apcLookup (l ++ [(q, b)]) p =
      match apcLookup l p with
      | some x => some x
      | none => if q = p then some b else none := by
  induction l with
  | nil => simp [apcLookup]
  | cons hd t ih =>
    obtain ⟨x, xb⟩ := hd
    by_cases hx : x = p
    · simp [apcLookup, hx]
    · simp [apcLookup, hx, ih]

theorem apcLookup_bucketAppend (l : List (String × List AccessPoint))
    (q : String) (ap : AccessPoint) (p : String) :
    apcLookup (bucketAppend l q ap) p =
      if q = p then (apcLookup l p).map (· ++ [ap]) else apcLookup l p := by
  induction l with
  | nil => by_cases h : q = p <;> simp [apcLookup, bucketAppend, h]
  | cons hd t ih =>
    obtain ⟨x, xb⟩ := hd
    by_cases hxq : x = q
    · by_cases hxp : x = p
      · have hqp : q = p := hxq.symm.trans hxp
        simp [apcLookup, bucketAppend, hxq, hxp, hqp]
      · have hqp : ¬ q = p := fun h => hxp (hxq.trans h)
        simp [apcLookup, bucketAppend, hxq, hxp, hqp]
    · by_cases hxp : x = p
      · have hqp : ¬ q = p := fun h => hxq (hxp.trans h.symm)
        have hpq : ¬ p = q := fun h => hqp h.symm
        simp [apcLookup, bucketAppend, hxq, hxp, hqp, hpq]
      · simp [apcLookup, bucketAppend, hxq, hxp, ih]

theorem bucketOf_add_other (c : AccessPointContainer) (ap : AccessPoint)
    (p : String) (hp : p ≠ ap.provider) :
    bucketOf (add_access_point c ap) p = bucketOf c p := by
  have hp' : ¬ ap.provider = p := fun h => hp h.symm
  unfold add_access_point
  cases hs : (apcLookup c.access_points ap.provider).isSome with
  | true =>
    simp only [hs, if_true]
    by_cases hmem : ap.uid ∈ uidsOf c ap.provider
    · simp [hmem]
    · simp [hmem, bucketOf, apcLookup_bucketAppend, hp']
  | false =>
    simp only [hs, Bool.false_eq_true, if_false]
    have hlook : bucketOf ⟨c.access_points ++ [(ap.provider, [])]⟩ p = bucketOf c p := by
      simp only [bucketOf, apcLookup_append_single, hp']
      cases apcLookup c.access_points p <;> simp
    by_cases hmem : ap.uid ∈ uidsOf ⟨c.access_points ++ [(ap.provider, [])]⟩ ap.provider
    · simp only [hmem, if_true]
      exact hlook
    · simp only [hmem, if_false, bucketOf, apcLookup_bucketAppend, hp', if_false]
      simpa [bucketOf] using hlook

theorem bucketOf_add_self (c : AccessPointContainer) (ap : AccessPoint) :
    bucketOf (add_access_point c ap) ap.provider =
      if ap.uid ∈ uidsOf c ap.provider then bucketOf c ap.provider
      else bucketOf c ap.provider ++ [ap] := by
  unfold add_access_point
  cases hs : apcLookup c.access_points ap.provider with
  | some b =>
    have hbucket : bucketOf c ap.provider = b := by simp [bucketOf, hs]
    simp only [hs, Option.isSome_some, if_true]
    by_cases hmem : ap.uid ∈ uidsOf c ap.provider
    · simp [hmem]
    · simp [hmem, bucketOf, apcLookup_bucketAppend, hs]
  | none =>
    have hbucket : bucketOf c ap.provider = [] := by simp [bucketOf, hs]
    have huids : uidsOf c ap.provider = [] := by simp [uidsOf, hbucket]
    have hlook1 : apcLookup (c.access_points ++ [(ap.provider, [])]) ap.provider
        = some [] := by
      simp [apcLookup_append_single, hs]
    have huids1 : uidsOf ⟨c.access_points ++ [(ap.provider, [])]⟩ ap.provider = [] := by
      simp [uidsOf, bucketOf, hlook1]
    simp only [hs, Option.isSome_none, Bool.false_eq_true, if_false, huids1,
      List.not_mem_nil, if_neg, huids, hbucket]
    simp [bucketOf, apcLookup_bucketAppend, hlook1]

theorem add_access_point_mem_unchanged (c : AccessPointContainer)
    (ap : AccessPoint) (h : ap.uid ∈ uidsOf c ap.provider) :
    add_access_point c ap = c := by
  have hsome : (apcLookup c.access_points ap.provider).isSome = true := by
    cases hs : apcLookup c.access_points ap.provider with
    | some b => rfl
    | none =>
      exfalso
      have : uidsOf c ap.provider = [] := by simp [uidsOf, bucketOf, hs]
      rw [this] at h
      exact List.not_mem_nil _ h
  unfold add_access_point
  simp only [hsome, if_true, h, if_pos]

theorem mem_uidsOf_add_self (c : AccessPointContainer) (ap : AccessPoint) :
    ap.uid ∈ uidsOf (add_access_point c ap) ap.provider := by
  simp only [uidsOf]
  rw [bucketOf_add_self]
  by_cases hmem : ap.uid ∈ uidsOf c ap.provider
  · rw [if_pos hmem]
    simpa only [uidsOf] using hmem
  · rw [if_neg hmem]
    simp

theorem add_access_point_idem (c : AccessPointContainer) (ap : AccessPoint) :
    add_access_point (add_access_point c ap) ap = add_access_point c ap :=
  add_access_point_mem_unchanged _ _ (mem_uidsOf_add_self c ap)

theorem nodup_uidsOf_add (c : AccessPointContainer) (ap : AccessPoint)
    (h : ∀ p, (uidsOf c p).Nodup) (p : String) :
    (uidsOf (add_access_point c ap) p).Nodup := by
  by_cases hp : p = ap.provider
  · rw [hp]
    simp only [uidsOf]
    rw [bucketOf_add_self]
    by_cases hmem : ap.uid ∈ uidsOf c ap.provider
    · rw [if_pos hmem]
      simpa only [uidsOf] using h ap.provider
    · rw [if_neg hmem, List.map_append]
      refine List.Nodup.append ?_ ?_ ?_
      · simpa only [uidsOf] using h ap.provider
      · simp
      · intro x hx hy
        simp only [List.map_cons, List.map_nil, List.mem_singleton] at hy
        subst hy
        exact hmem (by simpa only [uidsOf] using hx)
  · simp only [uidsOf]
    rw [bucketOf_add_other c ap p hp]
    simpa only [uidsOf] using h p

theorem nodup_uidsOf_addAll (aps : List AccessPoint) (c : AccessPointContainer)
    (h : ∀ p, (uidsOf c p).Nodup) (p : String) :
    (uidsOf (addAccessPoints c aps) p).Nodup := by
  induction aps generalizing c with
  | nil => exact h p
  | cons a t ih =>
    exact ih (add_access_point c a) (fun q => nodup_uidsOf_add c a h q)

theorem bucketOf_add_empty (ap : AccessPoint) :
    bucketOf (add_access_point emptyContainer ap) ap.provider = [ap] := by
  rw [bucketOf_add_self]
  have hempty_u : uidsOf emptyContainer ap.provider = [] := by
    simp [uidsOf, bucketOf, apcLookup, emptyContainer]
  have hempty_b : bucketOf emptyContainer ap.provider = [] := by
    simp [bucketOf, apcLookup, emptyContainer]
  rw [hempty_u, if_neg (List.not_mem_nil _), hempty_b, List.nil_append]

/-- C3: for every `AccessPointContainer`, after any sequence of
`add_access_point` calls starting from the empty container, no two access
points stored under the same provider share an identifier; adding an
access point whose uid already occurs under its provider leaves the
container unchanged; and adding the same (provider, identifier) pair
twice to a container leaves exactly one entry in `container[provider]`. -/
theorem c3_container_dedup :
    (∀ (aps : List AccessPoint) (p : String),
        (uidsOf (addAccessPoints emptyContainer aps) p).Nodup)
    ∧ (∀ (c : AccessPointContainer) (ap : AccessPoint),
        ap.uid ∈ uidsOf c ap.provider → add_access_point c ap = c)
    ∧ (∀ (p u : String),
        (bucketOf (addAccessPoints emptyContainer [⟨p, u⟩, ⟨p, u⟩]) p).length = 1) := by
  refine ⟨?_, ?_, ?_⟩
  · intro aps p
    refine nodup_uidsOf_addAll aps emptyContainer ?_ p
    intro q
    simp [uidsOf, bucketOf, apcLookup, emptyContainer]
  · exact add_access_point_mem_unchanged
  · intro p u
    have h2 : addAccessPoints emptyContainer [⟨p, u⟩, ⟨p, u⟩]
        = add_access_point emptyContainer ⟨p, u⟩ := by
      simp only [addAccessPoints, List.foldl]
      exact add_access_point_idem emptyContainer ⟨p, u⟩
    rw [h2]
    have h1 := bucketOf_add_empty (⟨p, u⟩ : AccessPoint)
    simpa using congrArg List.length h1

/-- Witness for C3: re-adding an access point whose uid is already present
under its provider leaves this concrete container unchanged. -/
theorem c3_container_dedup_witness :
    add_access_point ⟨[("prem", [⟨"prem", "http://u"⟩])]⟩ ⟨"prem", "http://u"⟩
      = ⟨[("prem", [⟨"prem", "http://u"⟩])]⟩ :=
  c3_container_dedup.2.1 ⟨[("prem", [⟨"prem", "http://u"⟩])]⟩
    ⟨"prem", "http://u"⟩ (by decide)

/-! ## Lemmas about the string operations -/

theorem chSplit_ne_nil (sep : Char) (s : List Char) : chSplit sep s ≠ [] := by
  cases s with
  | nil => simp [chSplit]
  | cons c rest =>
    simp only [chSplit]
    by_cases h : c = sep
    · simp [h]
    · rw [if_neg h]
      cases chSplit sep rest <;> simp

theorem chSplit_sep_cons (sep : Char) (rest : List Char) :
    chSplit sep (sep :: rest) = [] :: chSplit sep rest := by
  simp [chSplit]

theorem chSplit_exists_cons (sep : Char) (s : List Char) :
    ∃ h t, chSplit sep s = h :: t := by
  cases hx : chSplit sep s with
  | nil => exact absurd hx (chSplit_ne_nil sep s)
  | cons a b => exact ⟨a, b, rfl⟩

theorem chSplit_append_of_not_mem (sep : Char) (l rest : List Char)
    (hl : sep ∉ l) (h : List Char) (t' : List (List Char))
    (hrest : chSplit sep rest = h :: t') :
    chSplit sep (l ++ rest) = (l ++ h) :: t' := by
  induction l with
  | nil => simpa using hrest
  | cons c l' ih =>
    have hc : ¬ c = sep := fun hcs => hl (by simp [hcs])
    have hl' : sep ∉ l' := fun hm => hl (List.mem_cons_of_mem c hm)
    have ihh := ih hl'
    simp only [List.cons_append, chSplit, List.append_eq]
    rw [ihh, if_neg hc]

theorem chIntercalate_chSplit (sep : Char) (s : List Char) :
    chIntercalate sep (chSplit sep s) = s := by
  induction s with
  | nil => rfl
  | cons c rest ih =>
    obtain ⟨h0, t0, hrt⟩ := chSplit_exists_cons sep rest
    by_cases h : c = sep
    · rw [h, chSplit_sep_cons, hrt]
      simp only [chIntercalate, List.nil_append]
      rw [← hrt, ih]
    · simp only [chSplit]
      rw [if_neg h, hrt]
      cases t0 with
      | nil =>
        simp only [chIntercalate]
        rw [hrt] at ih
        simp only [chIntercalate] at ih
        rw [ih]
      | cons t1 ts =>
        simp only [chIntercalate, List.cons_append]
        rw [hrt] at ih
        simp only [chIntercalate] at ih
        rw [ih]

theorem string_data_append (a b : String) : (a ++ b).data = a.data ++ b.data := by
  cases a
  cases b
  rfl

theorem chStartsWith_append (p r : List Char) : chStartsWith (p ++ r) p = true := by
  induction p with
  | nil => cases r <;> rfl
  | cons c ps ih => simp [chStartsWith, ih]

theorem aws_uid_data (b k : String) :
    ("s3://" ++ b ++ "/" ++ k).data
      = ['s', '3', ':'] ++ ('/' :: '/' :: (b.data ++ '/' :: k.data)) := by
  have h1 : "/".data = ['/'] := rfl
  have h2 : "s3://".data = ['s', '3', ':', '/', '/'] := rfl
  simp [string_data_append, h1, h2]

theorem aws_uid_split (b k : String) (hb : '/' ∉ b.data) :
    chSplit '/' (("s3://" ++ b ++ "/" ++ k).data)
      = ['s', '3', ':'] :: [] :: b.data :: chSplit '/' k.data := by
  have hA : chSplit '/' ('/' :: k.data) = [] :: chSplit '/' k.data :=
    chSplit_sep_cons _ _
  have hB : chSplit '/' (b.data ++ '/' :: k.data) = b.data :: chSplit '/' k.data := by
    have := chSplit_append_of_not_mem '/' b.data ('/' :: k.data) hb []
      (chSplit '/' k.data) hA
    simpa using this
  have hC : chSplit '/' ('/' :: '/' :: (b.data ++ '/' :: k.data))
      = [] :: [] :: b.data :: chSplit '/' k.data := by
    rw [chSplit_sep_cons, chSplit_sep_cons, hB]
  have hD := chSplit_append_of_not_mem '/' ['s', '3', ':']
    ('/' :: '/' :: (b.data ++ '/' :: k.data)) (by decide)
    [] ([] :: b.data :: chSplit '/' k.data) hC
  rw [aws_uid_data]
  simpa using hD

theorem awsInit_parse (b k : String) (hb : '/' ∉ b.data) :
    awsInit none none (some ("s3://" ++ b ++ "/" ++ k))
      = .ok ⟨"s3://" ++ b ++ "/" ++ k, "s3://" ++ b ++ "/" ++ k, b, k⟩ := by
  have hsw : pyStartsWith ("s3://" ++ b ++ "/" ++ k) "s3://" = true := by
    unfold pyStartsWith
    rw [show ("s3://" ++ b ++ "/" ++ k).data
          = "s3://".data ++ (b.data ++ '/' :: k.data) from aws_uid_data b k]
    exact chStartsWith_append _ _
  have hparts : pySplit ("s3://" ++ b ++ "/" ++ k) '/'
      = "s3:" :: "" :: b :: (chSplit '/' k.data).map String.mk := by
    unfold pySplit
    rw [aws_uid_split b k hb]
    rfl
  have hjoin : pyJoin '/' ((chSplit '/' k.data).map String.mk) = k := by
    unfold pyJoin
    rw [List.map_map]
    rw [show String.data ∘ String.mk = id from rfl, List.map_id]
    rw [chIntercalate_chSplit]
  simp only [awsInit, hsw, if_true]
  rw [hparts]
  simp only [List.getD, List.drop, List.getElem?_cons_zero, Option.getD_some,
    List.get?_cons_succ, List.get?_cons_zero]
  rw [hjoin]

theorem awsInit_pair (b k : String) (c0 : Char) (kr : List Char)
    (hkd : k.data = c0 :: kr) (h0 : c0 ≠ '/') :
    awsInit (some b) (some k) none
      = .ok ⟨"s3://" ++ b ++ "/" ++ k, "s3://" ++ b ++ "/" ++ k, b, k⟩ := by
  simp only [awsInit]
  rw [hkd]
  simp only [if_neg h0]

/-- C7 counterexample: constructing from the pair `(bucket_name='b',
key='/a')` succeeds but yields the identifier `'s3://b/a'` (the leading
slash of the key is stripped, access_points.py lines 300-301), which is
not the claimed `'s3://{b}/{k}' = 's3://b//a'`. -/
theorem c7_roundtrip_counterexample :
    awsInit (some "b") (some "/a") none
      = .ok ⟨"s3://b/a", "s3://b/a", "b", "a"⟩
    ∧ ("s3://b/a" : String) ≠ "s3://" ++ "b" ++ "/" ++ "/a" := by
  constructor
  · rfl
  · decide

/-- C7 (amended): for every bucket name `b` containing no `'/'` and every
non-empty key `k` that does not start with `'/'`, constructing an
`AWSAccessPoint` from `(bucket_name=b, key=k)` yields the identifier
exactly `'s3://{b}/{k}'`, and constructing from that identifier yields
back exactly the same bucket name and key. -/
theorem c7_identifier_roundtrip_amended (b k : String) (hb : '/' ∉ b.data)
    (hk : k.data ≠ []) (hk0 : k.data.head? ≠ some '/') :
    awsInit (some b) (some k) none
      = .ok ⟨"s3://" ++ b ++ "/" ++ k, "s3://" ++ b ++ "/" ++ k, b, k⟩
    ∧ awsInit none none (some ("s3://" ++ b ++ "/" ++ k))
      = .ok ⟨"s3://" ++ b ++ "/" ++ k, "s3://" ++ b ++ "/" ++ k, b, k⟩ := by
  obtain ⟨c0, kr, hkd⟩ : ∃ c0 kr, k.data = c0 :: kr := by
    cases hx : k.data with
    | nil => exact absurd hx hk
    | cons a t => exact ⟨a, t, rfl⟩
  have h0 : c0 ≠ '/' := by
    intro hc
    apply hk0
    rw [hkd, hc]
    rfl
  exact ⟨awsInit_pair b k c0 kr hkd h0, awsInit_parse b k hb⟩

/-- Witness for C7 (amended) at `bucket='bucket'`, `key='key/file'`. -/
theorem c7_identifier_roundtrip_amended_witness :
    awsInit (some "bucket") (some "key/file") none
      = .ok ⟨"s3://" ++ "bucket" ++ "/" ++ "key/file",
             "s3://" ++ "bucket" ++ "/" ++ "key/file", "bucket", "key/file"⟩
    ∧ awsInit none none (some ("s3://" ++ "bucket" ++ "/" ++ "key/file"))
      = .ok ⟨"s3://" ++ "bucket" ++ "/" ++ "key/file",
             "s3://" ++ "bucket" ++ "/" ++ "key/file", "bucket", "key/file"⟩ :=
  c7_identifier_roundtrip_amended "bucket" "key/file"
    (by decide) (by decide) (by decide)

/-- C4 counterexample: constructing with BOTH an identifier and an
inconsistent parameter set does not fail — the identifier silently wins
and the passed `bucket_name='other'` is discarded (access_points.py
lines 305-312 rebind `bucket_name`/`key` from the uid without any
consistency check). -/
theorem c4_inconsistent_pair_counterexample :
    awsInit (some "other") (some "x") (some "s3://b/k")
      = .ok ⟨"s3://b/k", "s3://b/k", "b", "k"⟩
    ∧ ("b" : String) ≠ "other" := by
  constructor
  · rfl
  · decide

/-- C4 (amended): constructing an `AWSAccessPoint` with neither a uid nor
both of `bucket_name`/`key`, or with an incomplete pair when the uid is
absent, fails with `ValueError` (not a dedicated `ConfigurationError`
class — no such class exists in the repository); when both a uid and a
parameter set are given, the uid takes precedence and the parameters are
ignored without any consistency check; and a uid that does not start with
the `'s3://'` scheme fails with `ValueError` (not a dedicated
`MalformedIdentifierError`). -/
theorem c4_construction_contract_amended :
    (awsInit none none none
      = .error (.valueError "either uid or both bucket_name and key are required"))
    ∧ (∀ b : String, awsInit (some b) none none
      = .error (.valueError "either uid or both bucket_name and key are required"))
    ∧ (∀ k : String, awsInit none (some k) none
      = .error (.valueError "either uid or both bucket_name and key are required"))
    ∧ (∀ (bn k : Option String) (u : String),
        awsInit bn k (some u) = awsInit none none (some u))
    ∧ (∀ (bn k : Option String) (u : String),
        pyStartsWith u "s3://" = false →
          awsInit bn k (some u)
            = .error (.valueError "uid needs to be of the form s3: bucket key")) := by
  refine ⟨rfl, fun b => rfl, fun k => rfl, fun bn k u => rfl, ?_⟩
  intro bn k u h
  simp only [awsInit, h]
  rfl

/-- Witness for C4 (amended): a uid with the wrong scheme is rejected
with `ValueError`. -/
theorem c4_construction_contract_amended_witness :
    awsInit none none (some "s5://somebucket/file")
      = .error (.valueError "uid needs to be of the form s3: bucket key") :=
  c4_construction_contract_amended.2.2.2.2 none none "s5://somebucket/file"
    (by decide)

/-- C5 counterexample: a fresh `PREMAccessPoint.accessible` evaluation
whose HEAD probe raises a transport error propagates the exception —
access_points.py lines 222-226 wrap `requests.head` in no handler, so the
property is NOT raise-free. -/
theorem c5_prem_accessible_raises_counterexample :
    premAccessible ⟨"http://x", none⟩ (.raised "connection error")
      = .error (.exception "connection error") := rfl

/-- C5 (amended): `AWSAccessPoint.accessible` never raises — a raised
probe exception is captured as `(False, str(e))` — and both variants
memoize: with a cached value the property returns the cached tuple and
the unchanged state, independent of the probe outcome; a fresh PREM
evaluation that receives an HTTP response caches its result, so a second
evaluation returns the same tuple without another probe.  Only the PREM
variant can raise, and only on a fresh evaluation whose probe raises. -/
theorem c5_accessible_amended :
    (∀ (s : AWSAccessPointState) (m : String), s._accessible = none →
        (awsAccessible s (.exn m)).1 = (false, m))
    ∧ (∀ (s : AWSAccessPointState) (v : Bool × String)
        (h₁ h₂ : HeadObjectResult), s._accessible = some v →
          awsAccessible s h₁ = (v, s) ∧ awsAccessible s h₁ = awsAccessible s h₂)
    ∧ (∀ (s : PREMAccessPointState) (v : Bool × String)
        (h₁ h₂ : HeadResult), s._accessible = some v →
          premAccessible s h₁ = .ok (v, s)
          ∧ premAccessible s h₁ = premAccessible s h₂)
    ∧ (∀ (s : PREMAccessPointState) (code : Nat) (reason : String)
        (h₂ : HeadResult) (v : Bool × String) (s₂ : PREMAccessPointState),
        s._accessible = none →
        premAccessible s (.resp code reason) = .ok (v, s₂) →
        premAccessible s₂ h₂ = .ok (v, s₂)) := by
  refine ⟨?_, ?_, ?_, ?_⟩
  · intro s m h
    simp [awsAccessible, h]
  · intro s v h₁ h₂ h
    constructor <;> simp [awsAccessible, h]
  · intro s v h₁ h₂ h
    constructor <;> simp [premAccessible, h]
  · intro s code reason h₂ v s₂ h heq
    simp only [premAccessible, h] at heq
    rw [Except.ok.injEq, Prod.mk.injEq] at heq
    obtain ⟨hv, hs⟩ := heq
    rw [← hs]
    simp only [premAccessible]
    rw [hv]

/-- Witness for C5 (amended): a fresh AWS probe that raises is captured
as a `(False, message)` value instead of propagating. -/
theorem c5_accessible_amended_witness :
    (awsAccessible ⟨⟨"s3://b/k", "s3://b/k", "b", "k"⟩, none⟩
        (.exn "403 Forbidden")).1 = (false, "403 Forbidden") :=
  c5_accessible_amended.1 ⟨⟨"s3://b/k", "s3://b/k", "b", "k"⟩, none⟩
    "403 Forbidden" rfl

/-- C8: evaluating `AWSAccessPoint.download` at a cache hit — `cache`
true, a local file present whose size equals the expected content length
— returns Python `None` (the bare `return` of access_points.py line 415),
not the local path the documented contract promises; and on a cache miss
the transfer block raises `NameError` because `threading` is never
imported by access_points.py (line 424). -/
theorem c8_cached_download_returns_none :
    awsDownload ⟨"s3://b/k", "s3://b/k", "b", "k"⟩ true (.ok 100) (some 100)
      = .ok none
    ∧ awsDownload ⟨"s3://b/k", "s3://b/k", "b", "k"⟩ true (.ok 100) (some 99)
      = .error (.nameError "threading") := ⟨rfl, rfl⟩

theorem zipAppend_nil (ids : List String) :
    (((ids.map fun _ => ([] : List String)).zip
        (ids.map fun _ => ([] : List String))).map
      fun rr => rr.1 ++ rr.2) = ids.map fun _ => [] := by
  induction ids with
  | nil => rfl
  | cons a t ih => simp

/-- C6 counterexample: handler.py's `process_cloud_datalinks` invokes the
datalink service even for an option whose provider is NOT registered —
the service call (handler.py lines 269-274) happens before the provider
check (lines 280-281).  With the single option `'gc:somewhere'` the
service is invoked once, although `'gc'` is unregistered; the option
still contributes zero access points and raises no error. -/
theorem c6_unregistered_option_invoked_counterexample :
    (handlerDatalinksLoop ["gc:somewhere"]
        (fun _ => [⟨"id1", "s3://b/k"⟩]) ["id1"]).1 = ["gc:somewhere"]
    ∧ (handlerDatalinksLoop ["gc:somewhere"]
        (fun _ => [⟨"id1", "s3://b/k"⟩]) ["id1"]).2 = [[]]
    ∧ ("gc" : String) ∉ registeredProviders := by
  refine ⟨rfl, rfl, by decide⟩

/-- C6 (amended): in handler.py's `process_cloud_datalinks` the service
is invoked once per declared option REGARDLESS of whether the option's
provider (the part before the first `':'`) is registered; options with an
unregistered provider contribute zero access points and raise no error.
The pre-invocation skip the claim describes is implemented only by the
`_process_cloud_datalinks` variant in cloud.py, which invokes the service
exactly for the registered-provider options. -/
theorem c6_datalink_options_amended :
    (∀ (options : List String) (service : String → List DLTableRow)
        (ids : List String),
        (handlerDatalinksLoop options service ids).1 = options)
    ∧ (∀ (options : List String) (service : String → List DLTableRow)
        (ids : List String),
        (∀ o ∈ options, optionProviderOf o ∉ registeredProviders) →
          (handlerDatalinksLoop options service ids).2 = ids.map fun _ => [])
    ∧ (∀ (options : List String) (service : String → List DLTableRow)
        (ids : List String),
        (cloudDatalinksLoop options service ids).1
          = options.filter
              fun o => decide (optionProviderOf o ∈ registeredProviders)) := by
  refine ⟨?_, ?_, ?_⟩
  · intro options service ids
    induction options with
    | nil => rfl
    | cons o rest ih =>
      simp only [handlerDatalinksLoop]
      cases hrec : handlerDatalinksLoop rest service ids with
      | mk inv rows =>
        rw [hrec] at ih
        simp only at ih
        simp [ih]
  · intro options service ids hall
    induction options with
    | nil => rfl
    | cons o rest ih =>
      have ho : optionProviderOf o ∉ registeredProviders :=
        hall o (List.mem_cons_self o rest)
      have hrest : ∀ x ∈ rest, optionProviderOf x ∉ registeredProviders :=
        fun x hx => hall x (List.mem_cons_of_mem o hx)
      have ih2 := ih hrest
      simp only [handlerDatalinksLoop]
      cases hrec : handlerDatalinksLoop rest service ids with
      | mk inv rows =>
        rw [hrec] at ih2
        simp only at ih2
        rw [if_neg ho]
        simp only [ih2]
        exact zipAppend_nil ids
  · intro options service ids
    induction options with
    | nil => rfl
    | cons o rest ih =>
      simp only [cloudDatalinksLoop]
      cases hrec : cloudDatalinksLoop rest service ids with
      | mk inv rows =>
        rw [hrec] at ih
        simp only at ih
        by_cases hreg : optionProviderOf o ∈ registeredProviders
        · rw [if_pos hreg]
          simp [List.filter, hreg, ih]
        · rw [if_neg hreg]
          simp [List.filter, hreg, ih]

/-- Witness for C6 (amended): two unregistered options contribute zero
access points to the single product row. -/
theorem c6_datalink_options_amended_witness :
    (handlerDatalinksLoop ["gc:x", "azure:y"] (fun _ => []) ["i"]).2 = [[]] :=
  c6_datalink_options_amended.2.1 ["gc:x", "azure:y"] (fun _ => []) ["i"]
    (by decide)

/-- C9 counterexample: the orchestrator entry point rejects an input of
invalid runtime type with `ValueError` — not the `TypeError` the claim
names (handler.py lines 54-58 raise `ValueError`, and the repository's
own test `test_wrong_arg_type` asserts `ValueError`). -/
theorem c9_wrong_type_valueerror_counterexample :
    (generate_access_points ProductType.other ([] : List Unit) "all"
        (fun _ => []) (fun _ => []) (fun _ => [])).1
      = .error (.valueError "product has the wrong type")
    ∧ (PyError.valueError "product has the wrong type").className ≠ "TypeError"
    ∧ (generate_access_points ProductType.other ([] : List Unit) "all"
        (fun _ => []) (fun _ => []) (fun _ => [])).2 = [] := by
  refine ⟨rfl, by decide, rfl⟩

/-- C9 (amended): for every input product that is not a record, a
collection of records, a table, or a table row, `generate_access_points`
(and hence `CloudHandler`) rejects it with `ValueError` — not `TypeError`
— before any discovery strategy is invoked: the returned strategy trace
is empty. -/
theorem c9_invalid_type_rejected_amended {R : Type} (rows : List R)
    (mode : String) (js us ds : List R → List (List AccessPoint)) :
    (generate_access_points ProductType.other rows mode js us ds).1
      = .error (.valueError "product has the wrong type")
    ∧ (generate_access_points ProductType.other rows mode js us ds).2 = [] := by
  exact ⟨rfl, rfl⟩

/-- C10: for a single `Record` (and likewise a single table `Row`) on
which every discovery strategy returns no access points,
`generate_access_points` returns the empty list, so the first statement
of `CloudHandler.__init__` that inspects `generated_ap[0]` (handler.py
line 333) raises `IndexError`. -/
theorem c10_empty_discovery_index_error {R : Type} (r : R) (mode : String)
    (js us ds : List R → List (List AccessPoint))
    (hmode : mode = "json" ∨ mode = "datalink" ∨ mode = "ucd" ∨ mode = "all")
    (hjs : js [r] = [[]]) (hus : us [r] = [[]]) (hds : ds [r] = [[]]) :
    ((generate_access_points ProductType.record [r] mode js us ds).1 = .ok []
      ∧ cloudHandlerInitFlag ProductType.record [r] mode js us ds
        = .error .indexError)
    ∧ ((generate_access_points ProductType.row [r] mode js us ds).1 = .ok []
      ∧ cloudHandlerInitFlag ProductType.row [r] mode js us ds
        = .error .indexError) := by
  have hvm : ¬ ¬ (mode = "json" ∨ mode = "datalink" ∨ mode = "ucd" ∨ mode = "all") :=
    fun hc => hc hmode
  have hj : (if mode = "json" ∨ mode = "all" then js [r]
      else List.map (fun _ => []) [r]) = [[]] := by
    by_cases h1 : mode = "json" ∨ mode = "all"
    · rw [if_pos h1, hjs]
    · rw [if_neg h1]
      rfl
  have hrec : (generate_access_points ProductType.record [r] mode js us ds).1
      = .ok [] := by
    have hu : (if rowsAreRecords ProductType.record ∧ (mode = "ucd" ∨ mode = "all")
        then us [r] else List.map (fun _ => []) [r]) = [[]] := by
      by_cases h1 : rowsAreRecords ProductType.record ∧ (mode = "ucd" ∨ mode = "all")
      · rw [if_pos h1, hus]
      · rw [if_neg h1]
        rfl
    have hd : (if rowsAreRecords ProductType.record ∧ (mode = "datalink" ∨ mode = "all")
        then ds [r] else List.map (fun _ => []) [r]) = [[]] := by
      by_cases h1 : rowsAreRecords ProductType.record ∧ (mode = "datalink" ∨ mode = "all")
      · rw [if_pos h1, hds]
      · rw [if_neg h1]
        rfl
    simp only [generate_access_points]
    rw [if_neg (show ¬ ¬ (validProductType ProductType.record = true) from fun h => h rfl)]
    rw [if_neg hvm]
    simp only [hj, hu, hd]
    rfl
  have hrow : (generate_access_points ProductType.row [r] mode js us ds).1
      = .ok [] := by
    have hu : (if rowsAreRecords ProductType.row ∧ (mode = "ucd" ∨ mode = "all")
        then us [r] else List.map (fun _ => []) [r]) = [[]] := by
      by_cases h1 : rowsAreRecords ProductType.row ∧ (mode = "ucd" ∨ mode = "all")
      · rw [if_pos h1, hus]
      · rw [if_neg h1]
        rfl
    have hd : (if rowsAreRecords ProductType.row ∧ (mode = "datalink" ∨ mode = "all")
        then ds [r] else List.map (fun _ => []) [r]) = [[]] := by
      by_cases h1 : rowsAreRecords ProductType.row ∧ (mode = "datalink" ∨ mode = "all")
      · rw [if_pos h1, hds]
      · rw [if_neg h1]
        rfl
    simp only [generate_access_points]
    rw [if_neg (show ¬ ¬ (validProductType ProductType.row = true) from fun h => h rfl)]
    rw [if_neg hvm]
    simp only [hj, hu, hd]
    rfl
  refine ⟨⟨hrec, ?_⟩, ⟨hrow, ?_⟩⟩
  · simp only [cloudHandlerInitFlag, hrec]
    rfl
  · simp only [cloudHandlerInitFlag, hrow]
    rfl

/-- Witness for C10: a single record, mode `'all'`, all three strategies
returning an empty access-point list for the row. -/
theorem c10_empty_discovery_index_error_witness :
    cloudHandlerInitFlag ProductType.record [()] "all"
      (fun _ => [[]]) (fun _ => [[]]) (fun _ => [[]]) = .error .indexError :=
  (c10_empty_discovery_index_error () "all"
    (fun _ => [[]]) (fun _ => [[]]) (fun _ => [[]])
    (Or.inr (Or.inr (Or.inr rfl))) rfl rfl rfl).1.2

/-- C1: evaluating `CloudHandler.download` on a handler whose single
container lacks the requested provider key does NOT record the message
and return `None` — it raises `AttributeError`, because line 455 of
handler.py reads `access.providers` and `AccessPointContainer` defines no
attribute of that name.  The claimed no-raise behaviour is unreachable. -/
theorem c1_download_raises_attribute_error :
    cloudHandlerDownload [⟨[("prem", [⟨"prem", "http://u"⟩])]⟩] "aws"
        (fun _ => ((true, ""), some "local/path"))
      = .error (.attributeError "providers")
    ∧ ("providers" : String) ∉ containerAttrNames := by
  refine ⟨rfl, by decide⟩

/-- C2: even when the container DOES hold access points for the requested
provider, `CloudHandler.download` never reaches the probing loop: the
`access.providers` lookup on line 455 raises `AttributeError` first.  The
candidate loop itself (lines 462-468, modelled by `selectLoop`) would
have selected the first accessible candidate, as the third conjunct shows
for this row, but it is dead code behind the failing attribute lookup. -/
theorem c2_download_provider_present_raises :
    downloadRow ⟨[("prem", [⟨"prem", "http://u"⟩])]⟩ "prem"
        (fun _ => ((true, ""), some "local/path"))
      = .error (.attributeError "providers")
    ∧ ("providers" : String) ∉ containerAttrNames
    ∧ selectLoop [⟨"prem", "http://u"⟩] (fun _ => ((true, ""), some "local/path"))
      = (some "local/path", []) := by
  refine ⟨rfl, by decide, rfl⟩
